import Mathlib

/-
Verification of the core decision pipeline of the pm-copy-trading-bot
repository against its natural-language specification.

Shallow embedding conventions used throughout this file:
* Python floats are modelled as rationals (ℚ).  Binary floating-point
  rounding is not modelled; all claims checked here are about order and
  field structure, where float and rational evaluation agree on the
  concrete inputs used.
* Python dicts keyed by strings are modelled as association lists.
* Python functions that can raise (division by zero) are modelled as
  Option-valued functions returning none exactly where the Python code
  would raise; everything else is total.
* External collaborators (the Kalshi exchange client, wall-clock time,
  the team-extraction subroutine whose result depends on Python set
  iteration order) are passed in as explicit parameters.
Each definition carries a comment naming the Python source it embeds.
-/

/-! ### Generic string helpers (List Char based, kernel-computable) -/

/-- ASCII lowercase of a string, characterwise.  Models Python str.lower;
the two agree on ASCII, which is all this code base manipulates. -/
def lowerStr (s : String) : String := (s.data.map Char.toLower).asString

/-- Substring test; models the Python expression needle in hay. -/
def strHas (hay needle : String) : Bool :=
  (hay.data.tails).any (fun t => needle.data.isPrefixOf t)

/-- Suffix test; models Python str.endswith. -/
def strEnds (s t : String) : Bool := t.data.isSuffixOf s.data

/-- Strip of leading and trailing whitespace; models Python str.strip. -/
def stripStr (s : String) : String :=
  (((s.data.dropWhile Char.isWhitespace).reverse.dropWhile Char.isWhitespace).reverse).asString

/-! ### Python rounding -/

/-- Round half to even on rationals; models Python round applied to a
nonnegative-denominator rational value. -/
def pyRound (y : ℚ) : ℤ :=
  if y - ⌊y⌋ < 1/2 then ⌊y⌋
  else if 1/2 < y - ⌊y⌋ then ⌊y⌋ + 1
  else if ⌊y⌋ % 2 = 0 then ⌊y⌋ else ⌊y⌋ + 1

/-- Python round(x, 2): round to two decimal places, half to even. -/
def round2 (x : ℚ) : ℚ := ((pyRound (100 * x) : ℤ) : ℚ) / 100

/-- Python int(x): truncation toward zero. -/
def pyInt (q : ℚ) : ℤ := if 0 ≤ q then ⌊q⌋ else -⌊-q⌋

theorem pyRound_sub_le (y : ℚ) : |(pyRound y : ℚ) - y| ≤ 1/2 := by
  have hf : ((⌊y⌋ : ℚ)) ≤ y := Int.floor_le y
  have hf1 : y < (⌊y⌋ : ℚ) + 1 := Int.lt_floor_add_one y
  unfold pyRound
  split_ifs with h1 h2 h3 <;> rw [abs_le] <;> push_cast <;> constructor <;> linarith

theorem pyRound_nonneg {y : ℚ} (h : 0 ≤ y) : 0 ≤ pyRound y := by
  have hf : (0 : ℤ) ≤ ⌊y⌋ := Int.floor_nonneg.mpr h
  unfold pyRound
  split_ifs <;> omega

theorem round2_sub_le (x : ℚ) : |round2 x - x| ≤ 1/200 := by
  have h := pyRound_sub_le (100 * x)
  rw [abs_le] at h ⊢
  unfold round2
  constructor <;> [linarith [h.1]; linarith [h.2]]

theorem round2_nonneg {x : ℚ} (h : 0 ≤ x) : 0 ≤ round2 x := by
  have := pyRound_nonneg (y := 100 * x) (by linarith)
  unfold round2
  positivity

/-! ### Association-list helpers (Python dict model) -/

/-- Models dict.get(k, 0.0) on a string-keyed float dict. -/
def getD0 (m : List (String × ℚ)) (k : String) : ℚ :=
  match m.lookup k with
  | some v => v
  | none => 0

/-- Functional update m[k] = v, first occurrence replaced, else appended. -/
def setKey (m : List (String × ℚ)) (k : String) (v : ℚ) : List (String × ℚ) :=
  match m with
  | [] => [(k, v)]
  | (k0, v0) :: rest => if k0 = k then (k, v) :: rest else (k0, v0) :: setKey rest k v

/-- Models the executor idiom d[k] = d.get(k, 0.0) + v. -/
def bumpKey (m : List (String × ℚ)) (k : String) (v : ℚ) : List (String × ℚ) :=
  setKey m k (getD0 m k + v)

/-- Sum of the values of a string-keyed float dict; models sum(d.values()). -/
def sumValues (m : List (String × ℚ)) : ℚ := (m.map (fun p => p.2)).sum

/-! ### team_mappings.py -/

/-- The TEAM_ALIASES table of src/services/team_mappings.py, in source
order.  Python set literals are kept as lists in literal order; only the
canonical-per-alias structure matters to the functions below, not the
order inside one alias set. -/
def teamAliases : List (String × List String) := [
  ("utah jazz", ["utah", "uta", "jazz"]),
  ("boston celtics", ["boston", "bos", "celtics"]),
  ("brooklyn nets", ["brooklyn", "bkn", "nets"]),
  ("charlotte hornets", ["charlotte", "cha", "hornets"]),
  ("chicago bulls", ["chicago", "chi", "bulls"]),
  ("cleveland cavaliers", ["cleveland", "cle", "cavaliers", "cavs"]),
  ("dallas mavericks", ["dallas", "dal", "mavericks", "mavs"]),
  ("denver nuggets", ["denver", "den", "nuggets"]),
  ("detroit pistons", ["detroit", "det", "pistons"]),
  ("golden state warriors", ["golden state", "gsw", "warriors"]),
  ("houston rockets", ["houston", "hou", "rockets"]),
  ("indiana pacers", ["indiana", "ind", "pacers"]),
  ("la clippers", ["la clippers", "lac", "clippers"]),
  ("la lakers", ["la lakers", "lal", "lakers"]),
  ("memphis grizzlies", ["memphis", "mem", "grizzlies"]),
  ("miami heat", ["miami", "mia", "heat"]),
  ("milwaukee bucks", ["milwaukee", "mil", "bucks"]),
  ("minnesota timberwolves", ["minnesota", "min", "timberwolves", "twolves"]),
  ("new orleans pelicans", ["new orleans", "nop", "pelicans"]),
  ("new york knicks", ["new york", "nyk", "knicks"]),
  ("oklahoma city thunder", ["oklahoma city", "okc", "thunder"]),
  ("orlando magic", ["orlando", "orl", "magic"]),
  ("philadelphia 76ers", ["philadelphia", "phi", "76ers", "sixers"]),
  ("phoenix suns", ["phoenix", "phx", "suns"]),
  ("portland trail blazers", ["portland", "por", "trail blazers", "blazers"]),
  ("sacramento kings", ["sacramento", "sac", "kings"]),
  ("san antonio spurs", ["san antonio", "sas", "spurs"]),
  ("toronto raptors", ["toronto", "tor", "raptors"]),
  ("washington wizards", ["washington", "wsh", "wizards"]),
  ("arizona cardinals", ["arizona", "ari", "cardinals"]),
  ("atlanta falcons", ["atlanta", "atl", "falcons"]),
  ("baltimore ravens", ["baltimore", "bal", "ravens"]),
  ("buffalo bills", ["buffalo", "buf", "bills"]),
  ("carolina panthers", ["carolina", "car", "panthers"]),
  ("chicago bears", ["chicago", "chi", "bears"]),
  ("cincinnati bengals", ["cincinnati", "cin", "bengals"]),
  ("cleveland browns", ["cleveland", "cle", "browns"]),
  ("dallas cowboys", ["dallas", "dal", "cowboys"]),
  ("denver broncos", ["denver", "den", "broncos"]),
  ("detroit lions", ["detroit", "det", "lions"]),
  ("green bay packers", ["green bay", "gb", "packers"]),
  ("houston texans", ["houston", "hou", "texans"]),
  ("indianapolis colts", ["indianapolis", "ind", "colts"]),
  ("jacksonville jaguars", ["jacksonville", "jax", "jaguars"]),
  ("kansas city chiefs", ["kansas city", "kc", "chiefs"]),
  ("las vegas raiders", ["las vegas", "lv", "raiders"]),
  ("la chargers", ["la chargers", "lac", "chargers"]),
  ("la rams", ["la rams", "lar", "rams"]),
  ("miami dolphins", ["miami", "mia", "dolphins"]),
  ("minnesota vikings", ["minnesota", "min", "vikings"]),
  ("new england patriots", ["new england", "ne", "patriots"]),
  ("new orleans saints", ["new orleans", "no", "saints"]),
  ("new york giants", ["new york giants", "nyg", "giants"]),
  ("new york jets", ["new york jets", "nyj", "jets"]),
  ("philadelphia eagles", ["philadelphia", "phi", "eagles"]),
  ("pittsburgh steelers", ["pittsburgh", "pit", "steelers"]),
  ("san francisco 49ers", ["san francisco", "sf", "49ers"]),
  ("seattle seahawks", ["seattle", "sea", "seahawks"]),
  ("tampa bay buccaneers", ["tampa bay", "tb", "buccaneers"]),
  ("tennessee titans", ["tennessee", "ten", "titans"]),
  ("washington commanders", ["washington", "wsh", "commanders"]),
  ("cgy", ["calgary", "cgy", "flames", "cal"]),
  ("edm", ["edmonton", "edm", "oilers"]),
  ("van", ["vancouver", "van", "canucks"]),
  ("vgk", ["vegas", "vgk", "golden knights"]),
  ("lak", ["los angeles kings", "la", "lak", "kings", "los angeles"]),
  ("sea", ["seattle", "sea", "kraken"]),
  ("dal", ["dallas", "dal", "stars"]),
  ("stl", ["st. louis", "stl", "blues"]),
  ("col", ["colorado", "col", "avalanche"]),
  ("sjc", ["san jose", "sjc", "sharks"]),
  ("chi", ["chicago", "chi", "blackhawks"]),
  ("cbj", ["columbus", "cbj", "blue jackets"]),
  ("det", ["detroit", "det", "red wings"]),
  ("uta", ["utah", "uta", "utah hockey club"]),
  ("bos", ["boston", "bos", "bruins"]),
  ("fla", ["florida", "fla", "panthers"]),
  ("mtl", ["montreal", "mtl", "canadien"]),
  ("wpg", ["winnipeg", "wpg", "jets"]),
  ("min", ["minnesota", "min", "wild"]),
  ("nsh", ["nashville", "nsh", "predators"]),
  ("tor", ["toronto", "tor", "maple leafs"]),
  ("ott", ["ottawa", "ott", "senators"]),
  ("pit", ["pittsburgh", "pit", "penguins"]),
  ("nyi", ["new york islanders", "nyi", "islanders"]),
  ("nyr", ["new york rangers", "nyr", "rangers"]),
  ("njd", ["new jersey devils", "njd", "devils", "nj"]),
  ("phi", ["philadelphia", "phi", "flyers"]),
  ("wsh", ["washington", "wsh", "capitals", "capitals"]),
  ("car", ["carolina", "car", "hurricanes"]),
  ("buf", ["buffalo", "buf", "sabres"]),
  ("tbl", ["tampa bay", "tbl", "lightning"]),
  ("ana", ["anaheim", "ana", "ducks"]),
  ("ari", ["arizona", "ari", "coyotes"]),
  ("uconn", ["uconn", "connecticut"]),
  ("houston", ["houston", "hou"]),
  ("purdue", ["purdue"]),
  ("tennessee", ["tennessee", "ten"]),
  ("arizona", ["arizona", "ari"]),
  ("gonzaga", ["gonzaga"]),
  ("duke", ["duke"]),
  ("kansas", ["kansas"]),
  ("baylor", ["baylor"]),
  ("villanova", ["villanova"]),
  ("texas", ["texas"]),
  ("kentucky", ["kentucky"])]

/-- Embeds team_mappings.normalize: lowercase, strip, then delete every
character outside [a-z0-9].  The strip is subsumed by the deletion, as in
the Python code. -/
def normalizeName (name : String) : String :=
  (((stripStr (lowerStr name)).data).filter (fun c => c.isLower || c.isDigit)).asString

/-- The insertion sequence of the module-level _CANONICAL_FROM_ALIAS dict:
one (alias.lower(), canonical) pair per alias, in table order. -/
def aliasPairs : List (String × String) :=
  teamAliases.foldr (fun p acc => p.2.map (fun a => (lowerStr a, p.1)) ++ acc) []

/-- Embeds team_mappings.get_canonical.  The Python dict gives
last-write-wins semantics for duplicate aliases, hence the lookup on the
reversed insertion sequence. -/
def getCanonical (name : String) : Option String :=
  if name = "" then none
  else (aliasPairs.reverse).lookup (normalizeName name)

/-- Embeds team_mappings.is_same_team.  The Python guard `if not name1 or
not name2` is the empty-string test; the truthiness test `if c1 and c2` is
the some/some match, since every canonical in the table is nonempty. -/
def isSameTeam (name1 name2 : String) : Bool :=
  if name1 = "" ∨ name2 = "" then false
  else
    match getCanonical name1, getCanonical name2 with
    | some c1, some c2 => c1 == c2
    | _, _ => normalizeName name1 == normalizeName name2

/-- Modelled from the spec sentence of section 4.1: two raw strings denote
the same entity iff their canonicals are equal, or, when either fails to
normalize, their case/punctuation-normalized literal forms are equal.
This is the spec-side definition compared against isSameTeam. -/
def sameTeamSpec (name1 name2 : String) : Bool :=
  match getCanonical name1, getCanonical name2 with
  | some c1, some c2 => c1 == c2
  | _, _ => normalizeName name1 == normalizeName name2

example : isSameTeam "Knicks" "nyk" = true := by decide
example : isSameTeam "!!!" "???" = true := by decide
example : isSameTeam "" "" = false := by decide
example : sameTeamSpec "" "" = true := by decide

/-- C9 counterexample: on the pair of empty strings the code returns
false (the entry guard), while the claimed iff demands true, since both
empty strings fail to normalize to a canonical and their normalized
literal forms are equal. -/
theorem is_same_team_empty_strings :
    isSameTeam "" "" = false ∧ sameTeamSpec "" "" = true := by decide

/-- C9 (amended): for nonempty raw names the entity-sameness test agrees
exactly with the spec rule (equal canonicals, or, when either canonical is
missing, equal normalized literal forms); empty inputs are rejected
outright by the code. -/
theorem is_same_team_eq_spec_on_nonempty (a b : String) (ha : a ≠ "") (hb : b ≠ "") :
    isSameTeam a b = sameTeamSpec a b := by
  unfold isSameTeam sameTeamSpec
  rw [if_neg]
  push_neg
  exact ⟨ha, hb⟩

theorem is_same_team_eq_spec_on_nonempty_witness :
    isSameTeam "Boston" "bos" = sameTeamSpec "Boston" "bos" :=
  is_same_team_eq_spec_on_nonempty "Boston" "bos" (by decide) (by decide)

/-! ### market_matcher.py: data model -/

/-- One Kalshi market dict as consumed by the matcher: the title, id and
market_type keys are the only ones it reads. -/
structure KsMarket where
  title : String
  id : String
  market_type : String
deriving DecidableEq

/-- Embeds the PMTradeData dataclass of market_matcher.py. -/
structure PMTradeData where
  market_id : String
  token_id : String
  side : String
  size : ℚ
  sport : String
  teams : String × String
  market_type : String
  line : Option ℚ
  event_date : Option String
deriving DecidableEq

/-- Embeds the MarketMatch dataclass of market_matcher.py. -/
structure MarketMatch where
  pm_market_id : String
  pm_market_title : String
  pm_token_id : String
  pm_side : String
  kalshi_market_id : String
  kalshi_market_title : String
  kalshi_side : String
  sport : String
  game_key : String
  confidence : ℚ
  match_type : String
deriving DecidableEq

/-! ### market_matcher.py: field extraction -/

/-- The SPORT_MAP dict of MarketMatcher, in source order. -/
def sportMapTbl : List (String × String) := [
  ("nfl", "nfl"), ("football", "nfl"), ("super bowl", "nfl"),
  ("cfb", "cfb"), ("college football", "cfb"),
  ("nba", "nba"), ("basketball", "nba"),
  ("cbb", "cbb"), ("college basketball", "cbb"), ("ncaab", "cbb"),
  ("nhl", "nhl"), ("hockey", "nhl"),
  ("mlb", "mlb"), ("baseball", "mlb"),
  ("soccer", "soccer"), ("premier", "soccer"), ("la liga", "soccer"),
  ("serie a", "soccer"), ("bundesliga", "soccer"), ("ligue 1", "soccer"),
  ("fc", "soccer"), ("united", "soccer"), ("city", "soccer"),
  ("rangers", "soccer"), ("celtic", "soccer"),
  ("ufc", "ufc"), ("mma", "ufc"), ("boxing", "ufc"),
  ("pga", "pga"), ("golf", "pga"), ("masters", "pga")]

/-- Embeds MarketMatcher._detect_sport: first SPORT_MAP keyword found in
title plus slug, then slug fallbacks, else the empty string. -/
def detectSport (title slug : String) : String :=
  let text := lowerStr (title ++ " " ++ slug)
  match sportMapTbl.find? (fun p => strHas text p.1) with
  | some p => p.2
  | none =>
    if strHas slug "nfl" then "nfl"
    else if strHas slug "nba" then "nba"
    else if strHas slug "cbb" || strHas slug "ncaab" then "cbb"
    else if strHas slug "cfb" then "cfb"
    else if strHas slug "nhl" then "nhl"
    else if strHas slug "premier" || strHas slug "laliga" || strHas slug "serie-a" || strHas slug "bundesliga" then "soccer"
    else if strHas slug "epl" || strHas slug "pl" then "soccer"
    else ""

/-- Occurrence of a space, the given sign character, then a digit: the
regex fragments for signed lines inside SPREAD_PATTERNS. -/
def hasSpaceSignNum (sign : Char) (s : String) : Bool :=
  s.data.tails.any (fun t =>
    match t with
    | ' ' :: c1 :: c2 :: _ => c1 = sign && c2.isDigit
    | _ => false)

/-- Occurrence of vs, an optional dot, then a whitespace character: the
last WINNER_PATTERNS regex. -/
def hasVsPat (s : String) : Bool :=
  s.data.tails.any (fun t =>
    match t with
    | 'v' :: 's' :: '.' :: c :: _ => c.isWhitespace
    | 'v' :: 's' :: c :: _ => c.isWhitespace
    | _ => false)

/-- Disjunction of the SPREAD_PATTERNS regexes. -/
def spreadPat (t : String) : Bool :=
  strHas t "spread" || strHas t "wins by" || hasSpaceSignNum '-' t || hasSpaceSignNum '+' t

/-- Disjunction of the TOTAL_PATTERNS regexes. -/
def totalPat (t : String) : Bool :=
  strHas t "total" || strHas t "o/u" || strHas t "over/under" || strEnds t "points"

/-- Disjunction of the WINNER_PATTERNS regexes. -/
def winnerPat (t : String) : Bool :=
  strHas t "winner" || strEnds t "wins" || strHas t "beat" || hasVsPat t

/-- Embeds MarketMatcher._detect_market_type: spread patterns tested
first, then total, then winner, defaulting to winner. -/
def detectMarketType (title : String) : String :=
  let t := lowerStr title
  if spreadPat t then "spread"
  else if totalPat t then "total"
  else if winnerPat t then "winner"
  else "winner"

/-- Decimal value of a digit string. -/
def digitsToNat (l : List Char) : ℕ := l.foldl (fun n c => 10 * n + (c.toNat - 48)) 0

/-- Greedy consumption of one or more digits, an optional dot, then
digits, at a position known to start with a digit. -/
def numCore (l : List Char) : List Char :=
  let ds := l.takeWhile Char.isDigit
  let rest := l.dropWhile Char.isDigit
  match rest with
  | '.' :: r2 => ds ++ '.' :: r2.takeWhile Char.isDigit
  | _ => ds

/-- Attempt of the signed-decimal regex of _extract_line at one position:
an optional sign, then at least one digit, then an optional decimal part. -/
def matchNumAt (l : List Char) : Option (List Char) :=
  match l with
  | [] => none
  | c :: rest =>
    if c = '-' ∨ c = '+' then
      match rest with
      | d :: _ => if d.isDigit then some (c :: numCore rest) else none
      | [] => none
    else if c.isDigit then some (numCore l) else none

/-- Leftmost match of the signed-decimal regex, as in re.search. -/
def findNumTok (s : String) : Option (List Char) :=
  (s.data.tails.filterMap matchNumAt).head?

/-- Numeric value of an unsigned decimal token. -/
def posTokToRat (l : List Char) : ℚ :=
  let ds := l.takeWhile Char.isDigit
  let rest := l.dropWhile Char.isDigit
  match rest with
  | '.' :: fr => (digitsToNat ds : ℚ) + (digitsToNat fr : ℚ) / ((10: ℚ) ^ fr.length)
  | _ => (digitsToNat ds : ℚ)

/-- Numeric value of a signed decimal token, as Python float() of the
matched group. -/
def tokToRat (tok : List Char) : ℚ :=
  match tok with
  | '-' :: rest => -(posTokToRat rest)
  | '+' :: rest => posTokToRat rest
  | _ => posTokToRat tok

/-- Anchored match of the id-suffix regex of _extract_line: a hyphen,
then an unsigned decimal reaching the end of the id. -/
def idSuffixNum (mid : String) : Option (List Char) :=
  (mid.data.tails.filterMap (fun t =>
    match t with
    | '-' :: d :: rest =>
      if d.isDigit ∧ numCore (d :: rest) = d :: rest then some (d :: rest) else none
    | _ => none)).head?

/-- Embeds MarketMatcher._extract_line: for spread and total markets only,
the first decimal literal of the title, else a decimal suffix of the
instrument id. -/
def extractLine (title mtype mid : String) : Option ℚ :=
  if ¬ (mtype = "spread" ∨ mtype = "total") then none
  else
    match findNumTok title with
    | some tok => some (tokToRat tok)
    | none =>
      if mid = "" then none
      else
        match idSuffixNum mid with
        | some tok => some (posTokToRat tok)
        | none => none

/-- Match of the date regex digit{4}-digit{2}-digit{2} at one position. -/
def dateTokAt (t : List Char) : Option (List Char) :=
  match t with
  | a :: b :: c :: d :: '-' :: e :: f :: '-' :: g :: h :: _ =>
    if a.isDigit && b.isDigit && c.isDigit && d.isDigit &&
       e.isDigit && f.isDigit && g.isDigit && h.isDigit then
      some [a, b, c, d, '-', e, f, '-', g, h]
    else none
  | _ => none

/-- Embeds MarketMatcher._extract_date: leftmost date in the slug, else
in the title. -/
def extractDate (slug title : String) : Option String :=
  match (slug.data.tails.filterMap dateTokAt).head? with
  | some l => some l.asString
  | none =>
    match (title.data.tails.filterMap dateTokAt).head? with
    | some l => some l.asString
    | none => none

/-! ### market_matcher.py: parse_pm_trade -/

/-- The nested market object of a raw trade payload; the fields read by
the parser.  A missing field is none; a present-but-empty market dict is
falsy in Python and is modelled as a missing market. -/
structure RawMarket where
  mtitle : Option String
  question : Option String
  slug : Option String
  mid : Option String
deriving DecidableEq

/-- A raw Polymarket trade payload, restricted to the keys the pipeline
reads.  Numeric fields are rationals; a payload whose numeric field holds
a non-numeric string (which would make Python float() raise inside the
try block, yielding None) is outside this typed model. -/
structure RawTrade where
  market : Option RawMarket
  title : Option String
  question : Option String
  slug : Option String
  conditionId : Option String
  tid : Option String
  tokenId : Option String
  clobTokenId : Option String
  asset : Option String
  side : Option String
  size : Option ℚ
  usdcSize : Option ℚ
  amount : Option ℚ
  outcomeIndex : Option ℤ
  outcome : Option String
  transactionHash : Option String
  trader_address : Option String
deriving DecidableEq

/-- Python falsy-or on an optional string: get(k, default) or fallback. -/
def orD (a : Option String) (b : String) : String :=
  match a with
  | some s => if s = "" then b else s
  | none => b

/-- First truthy (present and nonempty) string of a field chain. -/
def firstTruthy : List (Option String) → String
  | [] => ""
  | a :: rest =>
    match a with
    | some s => if s = "" then firstTruthy rest else s
    | none => firstTruthy rest

/-- First truthy (present and nonzero) numeric value of a field chain. -/
def firstNonzero : List (Option ℚ) → ℚ
  | [] => 0
  | a :: rest =>
    match a with
    | some v => if v = 0 then firstNonzero rest else v
    | none => firstNonzero rest

/-- The token-id derivation of parse_pm_trade: tokenId or clobTokenId or
conditionId or asset, each falsy-skipped. -/
def tokenField (td : RawTrade) : String :=
  firstTruthy [td.tokenId, td.clobTokenId, td.conditionId, td.asset]

/-- The size derivation of parse_pm_trade: float(size or usdcSize or
amount or 0) — the first truthy, i.e. nonzero, value in that order. -/
def sizeField (td : RawTrade) : ℚ :=
  firstNonzero [td.size, td.usdcSize, td.amount]

/-- Embeds MarketMatcher.parse_pm_trade.  The team-extraction subroutine
_extract_teams iterates Python sets, whose iteration order the language
leaves unspecified, so it is passed in as a collaborator function of
(title, slug, sport).  The dead first assignment of side from the side
key, overwritten below from the outcome, is omitted. -/
def parsePmTrade (extractTeams : String → String → String → String × String)
    (td : RawTrade) : Option PMTradeData :=
  let title :=
    match td.market with
    | some mi => lowerStr (orD mi.mtitle (orD mi.question ""))
    | none => lowerStr (orD td.title (orD td.question ""))
  let slug :=
    match td.market with
    | some mi => lowerStr (orD mi.slug "")
    | none => lowerStr (orD td.slug "")
  let market_id :=
    match td.market with
    | some mi => mi.mid.getD ""
    | none =>
      match td.conditionId with
      | some v => v
      | none => td.tid.getD ""
  let token_id := tokenField td
  let size := sizeField td
  if token_id = "" then none
  else if size ≤ 0 then none
  else
    let outcome :=
      match td.outcomeIndex with
      | some i => if i = 0 then "yes" else "no"
      | none => lowerStr (td.outcome.getD "yes")
    let side := if outcome = "yes" then "yes" else "no"
    let sport := detectSport title slug
    let mtype := detectMarketType title
    some ⟨market_id, token_id, side, size, sport, extractTeams title slug sport,
          mtype, extractLine title mtype "", extractDate slug title⟩

/-! ### market_matcher.py: index and matching -/

/-- Split on the colon character; models str.split of _parse_tagged_key. -/
def splitColsAux : List Char → List Char → List String
  | [], cur => [cur.reverse.asString]
  | c :: rest, cur =>
    if c = ':' then cur.reverse.asString :: splitColsAux rest []
    else splitColsAux rest (c :: cur)

/-- Rejoin with colons; models the join in _parse_tagged_key. -/
def joinColon : List String → String
  | [] => ""
  | [s] => s
  | s :: rest => s ++ ":" ++ joinColon rest

/-- Embeds MarketMatcher._parse_tagged_key. -/
def parseTaggedKey (k : String) : String × String × String :=
  match splitColsAux k.data [] with
  | p0 :: p1 :: p2 :: rest => (p0, p1, joinColon (p2 :: rest))
  | [p0, p1] => (p0, "winner", p1)
  | _ => ("unknown", "winner", k)

/-- The _by_sport index of MarketMatcher: sport to game key to markets. -/
structure Matcher where
  bySport : List (String × List (String × List KsMarket))
deriving DecidableEq

/-- Bucket extension for one game key, preserving insertion order. -/
def extendAt (buckets : List (String × List KsMarket)) (gk : String) (ms : List KsMarket) :
    List (String × List KsMarket) :=
  match buckets with
  | [] => [(gk, ms)]
  | (k, v) :: rest => if k = gk then (k, v ++ ms) :: rest else (k, v) :: extendAt rest gk ms

/-- Sport-level insertion for _build_index. -/
def addSport (idx : List (String × List (String × List KsMarket))) (sport gk : String)
    (ms : List KsMarket) : List (String × List (String × List KsMarket)) :=
  match idx with
  | [] => [(sport, [(gk, ms)])]
  | (s, buckets) :: rest =>
    if s = sport then (s, extendAt buckets gk ms) :: rest
    else (s, buckets) :: addSport rest sport gk ms

/-- Embeds MarketMatcher._build_index: each tagged key is parsed, the
market type is stamped onto every market of the bucket, and the markets
are appended under (sport, game key).  The unused _by_game_key mirror is
not modelled. -/
def buildIndex (km : List (String × List KsMarket)) : Matcher :=
  ⟨km.foldl (fun idx p =>
      let tk := parseTaggedKey p.1
      addSport idx tk.1 tk.2.2 (p.2.map (fun m => { m with market_type := tk.2.1 }))) []⟩

/-- Code-point lexicographic comparison of char lists; the order Python
sorted uses on strings. -/
def charListLt : List Char → List Char → Bool
  | [], [] => false
  | [], _ :: _ => true
  | _ :: _, [] => false
  | a :: as, b :: bs => if a < b then true else if b < a then false else charListLt as bs

/-- Embeds MarketMatcher._build_game_key: both teams lowercased and
stripped, joined in sorted (code-point) order. -/
def buildGameKey (t1 t2 : String) : String :=
  let a := stripStr (lowerStr t1)
  let b := stripStr (lowerStr t2)
  if charListLt b.data a.data then b ++ "-" ++ a else a ++ "-" ++ b

/-- Embeds the inline line-tolerance filter of _find_best_match (lines
568-576): when both the candidate line and the signal line are present,
the candidate passes iff the absolute difference from the signal line —
taken in absolute value for spread markets — is at most one point; a
missing line on either side passes. -/
def lineOk (mt : String) (ksLine pmLine : Option ℚ) : Bool :=
  match ksLine, pmLine with
  | some kl, some pl =>
    let pla := if mt = "spread" then |pl| else pl
    if |kl - pla| > 1 then false else true
  | _, _ => true

/-- Embeds MarketMatcher._team_mentioned_in_title. -/
def teamMentionedInTitle (team : String) (title : String) : Bool :=
  (match getCanonical team with
   | some c => strHas title (lowerStr c)
   | none => false)
  || strHas title (lowerStr team)

/-- Embeds MarketMatcher._determine_kalshi_side.  For total markets the
side is passed through unchanged when the title carries an over/under
keyword and no side is produced otherwise; for winner and spread markets
the side is the whale side whenever either team is mentioned. -/
def determineKalshiSide (ks : KsMarket) (pm : PMTradeData) : Option String :=
  let t := lowerStr ks.title
  if pm.market_type = "total" then
    if strHas t "over" || strHas t "o/u" || strHas t "total points" then
      some (if pm.side = "yes" then "yes" else "no")
    else none
  else
    if teamMentionedInTitle pm.teams.1 t || teamMentionedInTitle pm.teams.2 t then
      some pm.side
    else none

/-- One iteration of the candidate loop of _find_best_match. -/
def candStep (pm : PMTradeData) (conf : ℚ) (mt : String)
    (acc : ℚ × Option MarketMatch) (ks : KsMarket) : ℚ × Option MarketMatch :=
  let ksTitle := lowerStr ks.title
  if ks.market_type ≠ pm.market_type then acc
  else if pm.market_type = "spread" ∧ strHas ksTitle (lowerStr pm.teams.1) = false then acc
  else if (pm.market_type = "spread" ∨ pm.market_type = "total") ∧
          lineOk pm.market_type (extractLine ksTitle ks.market_type ks.id) pm.line = false then acc
  else
    match determineKalshiSide ks pm with
    | none => acc
    | some ksSide =>
      let mc := conf +
        (if (pm.market_type = "spread" ∨ pm.market_type = "total") ∧ pm.line ≠ none
         then 1/10 else 0)
      if acc.1 < mc then
        (mc, some ⟨pm.market_id, ksTitle, pm.token_id, pm.side, ks.id, ksTitle, ksSide,
                   pm.sport, buildGameKey pm.teams.1 pm.teams.2, min mc 1, mt⟩)
      else acc

/-- Embeds MarketMatcher._find_best_match: scan all candidates, keeping
the first one of strictly highest confidence. -/
def findBestMatch (ksList : List KsMarket) (pm : PMTradeData) (conf : ℚ) (mt : String) :
    Option MarketMatch :=
  (ksList.foldl (candStep pm conf mt) (0, none)).2

/-- Embeds MarketMatcher.find_match: refuse an empty sport, then an exact
lookup of (sport, game key); cross-pair fuzzy matching is disabled in the
source, so a missing bucket is a terminal none. -/
def findMatch (mx : Matcher) (pm : PMTradeData) : Option MarketMatch :=
  if pm.sport = "" then none
  else
    match mx.bySport.lookup pm.sport with
    | none => none
    | some sportBuckets =>
      match sportBuckets.lookup (buildGameKey pm.teams.1 pm.teams.2) with
      | some ms => findBestMatch ms pm 1 "exact"
      | none => none

/-- C5 counterexample: a total-market candidate whose title carries none
of the over/under keywords, with origin side yes.  The claim demands the
inverted side no; the code instead produces no side at all, so the
candidate is skipped. -/
theorem determine_side_total_no_keyword_returns_none :
    determineKalshiSide ⟨"nyk at bos combined 230.5", "KXT-1", "total"⟩
        ⟨"pm1", "tok1", "yes", 100, "nba", ("bos", "nyk"), "total", some (2305/10), none⟩
      = none
    ∧ (none : Option String) ≠ some "no" := by
  constructor
  · decide
  · decide

/-- C5 (amended): the destination side, whenever one is produced, equals
the origin side — the matcher never inverts; and for a total market whose
title lacks every over/under keyword no side is produced at all, so the
candidate is skipped rather than inverted. -/
theorem determine_side_never_inverts (ks : KsMarket) (pm : PMTradeData) :
    (∀ s, pm.side = "yes" ∨ pm.side = "no" →
        determineKalshiSide ks pm = some s → s = pm.side)
    ∧ (pm.market_type = "total" →
        (strHas (lowerStr ks.title) "over" || strHas (lowerStr ks.title) "o/u" ||
          strHas (lowerStr ks.title) "total points") = false →
        determineKalshiSide ks pm = none) := by
  constructor
  · intro s hside h
    simp only [determineKalshiSide] at h
    by_cases h1 : pm.market_type = "total"
    · rw [if_pos h1] at h
      by_cases h2 : (strHas (lowerStr ks.title) "over" || strHas (lowerStr ks.title) "o/u" ||
          strHas (lowerStr ks.title) "total points") = true
      · rw [if_pos h2] at h
        rcases hside with hs | hs
        · rw [hs] at h ⊢
          rw [if_pos rfl] at h
          exact (Option.some_inj.mp h).symm
        · rw [hs] at h ⊢
          rw [if_neg (by decide)] at h
          exact (Option.some_inj.mp h).symm
      · rw [if_neg h2] at h
        cases h
    · rw [if_neg h1] at h
      by_cases h3 : (teamMentionedInTitle pm.teams.1 (lowerStr ks.title) ||
          teamMentionedInTitle pm.teams.2 (lowerStr ks.title)) = true
      · rw [if_pos h3] at h
        exact (Option.some_inj.mp h).symm
      · rw [if_neg h3] at h
        cases h
  · intro h1 h2
    simp only [determineKalshiSide]
    rw [if_pos h1, if_neg (by simp [h2])]

theorem determine_side_never_inverts_witness :
    ("yes" : String) =
      (PMTradeData.mk "pm1" "tok1" "yes" 100 "nba" ("bos", "nyk") "total" none none).side
    ∧ determineKalshiSide ⟨"combined score 230.5", "KXT-2", "total"⟩
        ⟨"pm1", "tok1", "yes", 100, "nba", ("bos", "nyk"), "total", none, none⟩ = none :=
  ⟨(determine_side_never_inverts ⟨"over/under 230.5", "KXT-3", "total"⟩
      (PMTradeData.mk "pm1" "tok1" "yes" 100 "nba" ("bos", "nyk") "total" none none)).1
      "yes" (Or.inl rfl) (by decide),
   (determine_side_never_inverts ⟨"combined score 230.5", "KXT-2", "total"⟩
      ⟨"pm1", "tok1", "yes", 100, "nba", ("bos", "nyk"), "total", none, none⟩).2
      rfl (by decide)⟩

/-- C6: the line filter of _find_best_match is the closed interval — a
candidate with extracted line L passes against signal line Lp iff the
absolute difference of L and Lp (Lp taken in absolute value for spread
markets) is at most one; a difference of exactly one passes and a
difference of 1.01 does not. -/
theorem line_tolerance_closed_interval :
    (∀ (mt : String) (L Lp : ℚ),
        lineOk mt (some L) (some Lp) = true ↔
          |L - (if mt = "spread" then |Lp| else Lp)| ≤ 1)
    ∧ lineOk "total" (some 231) (some 230) = true
    ∧ lineOk "total" (some (23101/100)) (some 230) = false
    ∧ lineOk "spread" (some (5/2)) (some (-7/2)) = true := by
  refine ⟨?_, ?_, ?_, ?_⟩
  · intro mt L Lp
    simp only [lineOk]
    rcases le_or_lt |L - (if mt = "spread" then |Lp| else Lp)| 1 with h | h
    · rw [if_neg (by linarith)]
      simp [h]
    · rw [if_pos (by linarith)]
      simp
      linarith
  · norm_num [lineOk]
  · norm_num [lineOk]
    rw [abs_of_pos] <;> norm_num
  · norm_num [lineOk, abs_le]
    rw [abs_of_pos] <;> norm_num

/-- A payload with positive size and a recognizable category, but no
token id in any of the four token fields. -/
def c8NoToken : RawTrade :=
  ⟨some ⟨some "Will Syracuse beat North Carolina?", none,
         some "cbb-syr-unc-2026-02-01", some "pm-123"⟩,
   none, none, none, none, none, none, none, none, some "buy",
   none, none, some 150, none, some "yes", none, none⟩

/-- A payload with a token id and positive size whose title and slug
match no category keyword at all. -/
def c8NoCategory : RawTrade :=
  ⟨none, some "Will it rain tomorrow?", none, some "rain-tomorrow-2026",
   none, none, some "abc", none, none, some "buy",
   some 100, none, none, none, some "yes", none, none⟩

/-- C8 counterexample: the payload with positive size (150) and a
detectable category (cbb) but no token id parses to none, while the
payload with a token id and positive size but no detectable category
parses successfully, carrying an empty sport — both sides refute the
claimed iff. -/
theorem parse_requires_token_not_category :
    parsePmTrade (fun _ _ _ => ("", "")) c8NoToken = none
    ∧ sizeField c8NoToken = 150
    ∧ detectSport (lowerStr "Will Syracuse beat North Carolina?")
        (lowerStr "cbb-syr-unc-2026-02-01") = "cbb"
    ∧ (parsePmTrade (fun _ _ _ => ("", "")) c8NoCategory).map PMTradeData.sport = some "" := by
  refine ⟨by decide, by decide, by decide, by decide⟩

/-- C8 (amended): for every raw payload in the typed model and every team
extractor, parsing fails iff the derived token id is empty or the derived
size — the first nonzero value across size, usdcSize, amount — is
nonpositive.  A missing category only degrades the signal to an empty
sport; it never aborts parsing. -/
theorem parse_fails_iff_token_empty_or_size_nonpos
    (et : String → String → String → String × String) (td : RawTrade) :
    parsePmTrade et td = none ↔ (tokenField td = "" ∨ sizeField td ≤ 0) := by
  by_cases h1 : tokenField td = ""
  · simp [parsePmTrade, h1]
  · by_cases h2 : sizeField td ≤ 0
    · simp [parsePmTrade, h1, h2]
    · simp [parsePmTrade, h1, h2]

/-! ### risk_manager.py -/

/-- The RiskLevel enum of risk_manager.py. -/
inductive RiskLevel
  | low
  | medium
  | high
  | critical
deriving DecidableEq

/-- The RiskCheckResult dataclass; the warnings list of formatted strings
is modelled by its length. -/
structure RiskCheckResult where
  approved : Bool
  risk_level : RiskLevel
  position_size : ℚ
  warnings : ℕ
  final_position_size : ℚ
  suggested_multiplier : ℚ
deriving DecidableEq

/-- The mutable attributes of a RiskManager instance read by
check_position; trader exposures are percentages keyed by wallet. -/
structure RMState where
  max_trade_percent : ℚ
  max_trader_exposure : ℚ
  max_total_exposure : ℚ
  max_drawdown_percent : ℚ
  drawdown_reduction_factor : ℚ
  bankroll : ℚ
  trader_exposures : List (String × ℚ)
  current_drawdown : ℚ
  current_exposure_percent : ℚ

/-- Embeds RiskManager._calculate_risk_level. -/
def calcRiskLevel (bankroll pos wr pnl : ℚ) : RiskLevel :=
  let size_percent := pos / bankroll * 100
  let size_risk := if size_percent > 3/2 then RiskLevel.high
    else if size_percent > 1 then RiskLevel.medium else RiskLevel.low
  let win_risk := if wr < 45/100 then RiskLevel.high
    else if wr > 70/100 then RiskLevel.medium else RiskLevel.low
  let pnl_risk := if pnl < -100 then RiskLevel.high
    else if pnl < 0 then RiskLevel.medium else RiskLevel.low
  let risks := [size_risk, win_risk, pnl_risk]
  if RiskLevel.critical ∈ risks then RiskLevel.critical
  else if RiskLevel.high ∈ risks then RiskLevel.high
  else if RiskLevel.medium ∈ risks then RiskLevel.medium
  else RiskLevel.low

/-- Check 1 of check_position: cap at the per-trade maximum. -/
def capPerTrade (max_size proposed : ℚ) : ℚ :=
  if proposed > max_size then max_size else proposed

/-- Checks 2 and 3 of check_position share this shape: if the running
percentage plus the contribution of p exceeds the cap, replace p by the
dollar value of the remaining percentage headroom. -/
def capExposure (bankroll cap current p : ℚ) : ℚ :=
  if current + p / bankroll * 100 > cap then (cap - current) / 100 * bankroll else p

/-- The proposed size after checks 1 to 3 of check_position, before the
drawdown branch. -/
def preDrawdownClamp (rm : RMState) (wallet : String) (proposed : ℚ) : ℚ :=
  capExposure rm.bankroll rm.max_total_exposure rm.current_exposure_percent
    (capExposure rm.bankroll rm.max_trader_exposure (getD0 rm.trader_exposures wallet)
      (capPerTrade (rm.max_trade_percent / 100 * rm.bankroll) proposed))

/-- Indicator used for the warning-list length: one warning is appended
when a check triggers. -/
def cnt (b : Prop) [Decidable b] : ℕ := if b then 1 else 0

/-- Embeds RiskManager.check_position.  Returns none exactly where the
Python code would raise ZeroDivisionError: a zero bankroll (checks 2, 3
and the risk-level computation divide by it), a zero max drawdown while a
positive drawdown is recorded, and a zero per-trade maximum at the final
suggested-multiplier division. -/
def checkPosition (rm : RMState) (wallet : String) (proposed pnl wr : ℚ) :
    Option RiskCheckResult :=
  if rm.bankroll = 0 then none else
  let max_size := rm.max_trade_percent / 100 * rm.bankroll
  let p1 := capPerTrade max_size proposed
  let current := getD0 rm.trader_exposures wallet
  let p2 := capExposure rm.bankroll rm.max_trader_exposure current p1
  let p3 := preDrawdownClamp rm wallet proposed
  let w3 : ℕ := cnt (proposed > max_size)
    + cnt (current + p1 / rm.bankroll * 100 > rm.max_trader_exposure)
    + cnt (rm.current_exposure_percent + p2 / rm.bankroll * 100 > rm.max_total_exposure)
  let tail := fun (p : ℚ) (w : ℕ) =>
    if max_size = 0 then none
    else some (RiskCheckResult.mk true (calcRiskLevel rm.bankroll p wr pnl) p w p (p / max_size))
  if 0 < rm.current_drawdown then
    if rm.max_drawdown_percent = 0 then none else
    if 1/2 < rm.current_drawdown / rm.max_drawdown_percent then
      let p4 := p3 * (1 - rm.drawdown_reduction_factor *
        (rm.current_drawdown / rm.max_drawdown_percent))
      if p4 < 1 then some (RiskCheckResult.mk false RiskLevel.critical 0 (w3 + 2) 0 0)
      else tail p4 (w3 + 1)
    else tail p3 w3
  else tail p3 w3

theorem capPerTrade_le (m p : ℚ) : capPerTrade m p ≤ p := by
  unfold capPerTrade
  split_ifs with h
  · exact le_of_lt h
  · exact le_refl p

theorem capPerTrade_nonneg {m p : ℚ} (hm : 0 ≤ m) (hp : 0 ≤ p) : 0 ≤ capPerTrade m p := by
  unfold capPerTrade
  split_ifs <;> assumption

theorem capExposure_le {b : ℚ} (hb : 0 < b) (cap cur p : ℚ) : capExposure b cap cur p ≤ p := by
  unfold capExposure
  split_ifs with h
  · have hb' : b ≠ 0 := ne_of_gt hb
    have h2 : (cap - cur) * b < p * 100 := by
      have h3 : cap - cur < p / b * 100 := by linarith
      have h4 := mul_lt_mul_of_pos_right h3 hb
      calc (cap - cur) * b < p / b * 100 * b := h4
        _ = p * 100 := by field_simp
    have h5 : (cap - cur) / 100 * b = (cap - cur) * b / 100 := by ring
    rw [h5]
    linarith
  · exact le_refl p

theorem capExposure_nonneg {b cap cur p : ℚ} (hb : 0 < b) (hcur : cur ≤ cap) (hp : 0 ≤ p) :
    0 ≤ capExposure b cap cur p := by
  unfold capExposure
  split_ifs with h
  · exact mul_nonneg (div_nonneg (by linarith) (by norm_num)) hb.le
  · exact hp

/-- C3 counterexample: with bankroll 400 and default limits, a stored
per-trader exposure of 10.5 percent (above the 10 percent cap) and a
45 percent recorded drawdown, a proposed size of 0.10 dollars is turned
into a negative intermediate by check 2 and then multiplied by the
negative drawdown factor, returning an approved final size of 1.00 —
ten times the proposed amount. -/
theorem check_position_can_increase_amount :
    ((checkPosition ⟨2, 10, 30, 15, 1/2, 400, [("w", 21/2)], 45, 0⟩ "w" (1/10) 0 (3/5)).map
        (fun r => (r.approved, r.final_position_size))) = some (true, 1)
    ∧ ¬ ((1 : ℚ) ≤ 1/10) := by
  constructor
  · norm_num [checkPosition, preDrawdownClamp, capPerTrade, capExposure, getD0,
      calcRiskLevel, cnt, List.lookup]
  · norm_num

/-- C3 (amended): the clamp chain is monotone non-increasing — the final
approved size never exceeds the proposed amount — for every state with
positive bankroll, nonnegative per-trade percentage and reduction factor,
whose stored per-trader and total exposures do not already exceed their
caps.  (The counterexample shows the restriction on stored exposures is
necessary: an over-cap stored exposure makes check 2 emit a negative
intermediate that a beyond-double-max drawdown factor flips positive.) -/
theorem check_position_monotone_of_caps (rm : RMState) (wallet : String)
    (proposed pnl wr : ℚ) (r : RiskCheckResult)
    (hb : 0 < rm.bankroll) (hp : 0 ≤ proposed)
    (hmtp : 0 ≤ rm.max_trade_percent) (hdrf : 0 ≤ rm.drawdown_reduction_factor)
    (hte : getD0 rm.trader_exposures wallet ≤ rm.max_trader_exposure)
    (hce : rm.current_exposure_percent ≤ rm.max_total_exposure)
    (h : checkPosition rm wallet proposed pnl wr = some r) :
    r.final_position_size ≤ proposed := by
  have hms : (0:ℚ) ≤ rm.max_trade_percent / 100 * rm.bankroll :=
    mul_nonneg (div_nonneg hmtp (by norm_num)) hb.le
  have h1le := capPerTrade_le (rm.max_trade_percent / 100 * rm.bankroll) proposed
  have h1nn := capPerTrade_nonneg hms hp
  have h2le := capExposure_le hb rm.max_trader_exposure (getD0 rm.trader_exposures wallet)
      (capPerTrade (rm.max_trade_percent / 100 * rm.bankroll) proposed)
  have h2nn := capExposure_nonneg hb hte h1nn
  have h3le := capExposure_le hb rm.max_total_exposure rm.current_exposure_percent
      (capExposure rm.bankroll rm.max_trader_exposure (getD0 rm.trader_exposures wallet)
        (capPerTrade (rm.max_trade_percent / 100 * rm.bankroll) proposed))
  have h3nn := capExposure_nonneg hb hce h2nn
  have hp3le : preDrawdownClamp rm wallet proposed ≤ proposed := by
    simp only [preDrawdownClamp]
    exact le_trans h3le (le_trans h2le h1le)
  have hp3nn : 0 ≤ preDrawdownClamp rm wallet proposed := by
    simp only [preDrawdownClamp]
    exact h3nn
  simp only [checkPosition] at h
  rw [if_neg (ne_of_gt hb)] at h
  by_cases hd1 : 0 < rm.current_drawdown
  · rw [if_pos hd1] at h
    by_cases hd2 : rm.max_drawdown_percent = 0
    · rw [if_pos hd2] at h
      exact Option.noConfusion h
    · rw [if_neg hd2] at h
      by_cases hd3 : 1/2 < rm.current_drawdown / rm.max_drawdown_percent
      · rw [if_pos hd3] at h
        by_cases hd4 : preDrawdownClamp rm wallet proposed *
            (1 - rm.drawdown_reduction_factor *
              (rm.current_drawdown / rm.max_drawdown_percent)) < 1
        · rw [if_pos hd4] at h
          obtain rfl := Option.some_inj.mp h
          simpa using hp
        · rw [if_neg hd4] at h
          by_cases hd5 : rm.max_trade_percent / 100 * rm.bankroll = 0
          · rw [if_pos hd5] at h
            exact Option.noConfusion h
          · rw [if_neg hd5] at h
            obtain rfl := Option.some_inj.mp h
            have hddpos : (0:ℚ) < rm.current_drawdown / rm.max_drawdown_percent :=
              lt_trans (by norm_num) hd3
            have hfac : 1 - rm.drawdown_reduction_factor *
                (rm.current_drawdown / rm.max_drawdown_percent) ≤ 1 := by
              nlinarith [mul_nonneg hdrf hddpos.le]
            have hle : preDrawdownClamp rm wallet proposed *
                  (1 - rm.drawdown_reduction_factor *
                    (rm.current_drawdown / rm.max_drawdown_percent))
                ≤ preDrawdownClamp rm wallet proposed := by
              nlinarith [mul_le_mul_of_nonneg_left hfac hp3nn]
            simpa using le_trans hle hp3le
      · rw [if_neg hd3] at h
        by_cases hd5 : rm.max_trade_percent / 100 * rm.bankroll = 0
        · rw [if_pos hd5] at h
          exact Option.noConfusion h
        · rw [if_neg hd5] at h
          obtain rfl := Option.some_inj.mp h
          simpa using hp3le
  · rw [if_neg hd1] at h
    by_cases hd5 : rm.max_trade_percent / 100 * rm.bankroll = 0
    · rw [if_pos hd5] at h
      exact Option.noConfusion h
    · rw [if_neg hd5] at h
      obtain rfl := Option.some_inj.mp h
      simpa using hp3le

theorem check_position_monotone_of_caps_witness :
    ∃ r, checkPosition ⟨2, 10, 30, 15, 1/2, 400, [], 0, 0⟩ "w" 5 0 (3/5) = some r ∧
      r.final_position_size ≤ 5 := by
  have heval : checkPosition ⟨2, 10, 30, 15, 1/2, 400, [], 0, 0⟩ "w" 5 0 (3/5)
      = some ⟨true, RiskLevel.medium, 5, 0, 5, 5/8⟩ := by
    norm_num [checkPosition, preDrawdownClamp, capPerTrade, capExposure, getD0,
      calcRiskLevel, cnt, List.lookup]
    decide
  exact ⟨_, heval,
    check_position_monotone_of_caps ⟨2, 10, 30, 15, 1/2, 400, [], 0, 0⟩ "w" 5 0 (3/5) _
      (by norm_num) (by norm_num) (by norm_num) (by norm_num)
      (by norm_num [getD0, List.lookup]) (by norm_num) heval⟩

/-- C4 counterexample: an 18 percent drawdown against a configured
maximum of 15 percent — beyond the maximum — with a 10 dollar proposal on
a 400 dollar bankroll.  The claim demands outright rejection; the code
scales the capped 8 dollars by the factor 1 - 0.5 times 18/15 = 0.4 and
approves 3.20 dollars. -/
theorem check_position_beyond_max_drawdown_still_approves :
    ((checkPosition ⟨2, 10, 30, 15, 1/2, 400, [], 18, 0⟩ "w" 10 0 (3/5)).map
        (fun r => (r.approved, r.final_position_size))) = some (true, 16/5)
    ∧ (15 : ℚ) < 18 := by
  constructor
  · norm_num [checkPosition, preDrawdownClamp, capPerTrade, capExposure, getD0,
      calcRiskLevel, cnt, List.lookup]
  · norm_num

/-- C4 (amended): whenever the recorded drawdown exceeds half the
positive configured maximum (with nonzero bankroll and nonzero per-trade
maximum), check_position multiplies the cap-clamped amount by the factor
1 - reduction_factor * (drawdown / max_drawdown); it rejects the trade
exactly when that scaled amount falls below one dollar, and otherwise
approves the scaled amount — also when the drawdown is beyond the
configured maximum. -/
theorem check_position_drawdown_scaling (rm : RMState) (wallet : String)
    (proposed pnl wr : ℚ)
    (hb : rm.bankroll ≠ 0) (hmdd : 0 < rm.max_drawdown_percent)
    (hdd : rm.max_drawdown_percent / 2 < rm.current_drawdown)
    (hms : rm.max_trade_percent / 100 * rm.bankroll ≠ 0) :
    (preDrawdownClamp rm wallet proposed *
        (1 - rm.drawdown_reduction_factor *
          (rm.current_drawdown / rm.max_drawdown_percent)) < 1 →
      (checkPosition rm wallet proposed pnl wr).map (fun r => r.approved) = some false)
    ∧ (¬ (preDrawdownClamp rm wallet proposed *
        (1 - rm.drawdown_reduction_factor *
          (rm.current_drawdown / rm.max_drawdown_percent)) < 1) →
      (checkPosition rm wallet proposed pnl wr).map
          (fun r => (r.approved, r.final_position_size))
        = some (true, preDrawdownClamp rm wallet proposed *
            (1 - rm.drawdown_reduction_factor *
              (rm.current_drawdown / rm.max_drawdown_percent)))) := by
  have hcd : 0 < rm.current_drawdown := by linarith [hmdd]
  have hrat : 1/2 < rm.current_drawdown / rm.max_drawdown_percent := by
    rw [lt_div_iff₀ hmdd]
    linarith
  constructor
  · intro hlt
    simp only [checkPosition]
    rw [if_neg hb, if_pos hcd, if_neg (ne_of_gt hmdd), if_pos hrat, if_pos hlt]
    simp
  · intro hge
    simp only [checkPosition]
    rw [if_neg hb, if_pos hcd, if_neg (ne_of_gt hmdd), if_pos hrat, if_neg hge, if_neg hms]
    simp

theorem check_position_drawdown_scaling_witness :
    (checkPosition ⟨2, 10, 30, 15, 1/2, 400, [], 9, 0⟩ "w" 5 0 (3/5)).map
        (fun r => (r.approved, r.final_position_size)) = some (true, 7/2) := by
  have hp3 : preDrawdownClamp ⟨2, 10, 30, 15, 1/2, 400, [], 9, 0⟩ "w" 5 = 5 := by
    norm_num [preDrawdownClamp, capPerTrade, capExposure, getD0, List.lookup]
  have h2 := (check_position_drawdown_scaling ⟨2, 10, 30, 15, 1/2, 400, [], 9, 0⟩ "w" 5 0 (3/5)
      (by norm_num) (by norm_num) (by norm_num) (by norm_num)).2
  rw [hp3] at h2
  norm_num at h2
  convert h2 using 2
  norm_num

/-! ### kelly_calculator.py -/

/-- The constructor attributes of KellyCalculator. -/
structure KellyCfg where
  kelly_fraction : ℚ
  max_trade_percent : ℚ
  max_trader_exposure : ℚ
  bankroll : ℚ

/-- The KellyResult dataclass; the warnings list is modelled by its
length. -/
structure KellyResult where
  kelly_fraction : ℚ
  optimal_size_percent : ℚ
  recommended_position_size : ℚ
  warnings : ℕ
deriving DecidableEq

/-- The win-rate sanitization of calculate_kelly: out-of-range values are
replaced by the 0.6 default. -/
def sanitizeWr (w : ℚ) : ℚ := if w < 0 ∨ w > 1 then 3/5 else w

/-- The win/loss-ratio sanitization of calculate_kelly: nonpositive
values are replaced by the 1.5 default. -/
def sanitizeRr (r : ℚ) : ℚ := if r ≤ 0 then 3/2 else r

/-- The Kelly formula W - (1-W)/R of calculate_kelly. -/
def fullKelly (wr rr : ℚ) : ℚ := wr - (1 - wr) / rr

/-- Embeds KellyCalculator.calculate_kelly.  Returns none exactly where
Python would raise ZeroDivisionError; the only unguarded divisor is the
sanitized win/loss value, which the sanitization keeps positive, and the
copy-ratio division is guarded by trader_size > 0 as in the source. -/
def calculateKelly (c : KellyCfg) (win_rate wlr trader_size cur_exp : ℚ) :
    Option KellyResult :=
  let w2 : ℕ := cnt (win_rate < 0 ∨ win_rate > 1) + cnt (wlr ≤ 0)
  if sanitizeRr wlr = 0 then none else
  let kfu0 := fullKelly (sanitizeWr win_rate) (sanitizeRr wlr) * c.kelly_fraction
  let osp0 := kfu0 * 100
  let osp1 := if osp0 > c.max_trade_percent then c.max_trade_percent else osp0
  let kfu1 := if osp0 > c.max_trade_percent then c.max_trade_percent / 100 else kfu0
  let w3 := w2 + cnt (osp0 > c.max_trade_percent)
  let osp2 := if cur_exp + osp1 > c.max_trader_exposure then c.max_trader_exposure - cur_exp else osp1
  let kfu2 := if cur_exp + osp1 > c.max_trader_exposure then (c.max_trader_exposure - cur_exp) / 100 else kfu1
  let w4 := w3 + cnt (cur_exp + osp1 > c.max_trader_exposure)
  let osp3 := if kfu2 < 0 then 0 else osp2
  let kfu3 := if kfu2 < 0 then 0 else kfu2
  let w5 := w4 + cnt (kfu2 < 0)
  let recommended := osp3 / 100 * c.bankroll
  let w6 := if trader_size > 0 then
      (if recommended / trader_size > 3/2 then w5 + 1
       else if recommended / trader_size < 1/2 then w5 + 1 else w5)
    else w5
  some ⟨kfu3, osp3, round2 recommended, w6⟩

theorem kelly_clamp_nonneg (K mtp mte ce : ℚ) :
    0 ≤ (if (if ce + (if K * 100 > mtp then mtp else K * 100) > mte then (mte - ce) / 100
             else if K * 100 > mtp then mtp / 100 else K) < 0 then 0
         else if ce + (if K * 100 > mtp then mtp else K * 100) > mte then mte - ce
              else if K * 100 > mtp then mtp else K * 100) := by
  split_ifs <;> linarith

theorem kelly_clamp_le (K mtp mte ce : ℚ) (hm : 0 ≤ mtp) :
    (if (if ce + (if K * 100 > mtp then mtp else K * 100) > mte then (mte - ce) / 100
         else if K * 100 > mtp then mtp / 100 else K) < 0 then 0
     else if ce + (if K * 100 > mtp then mtp else K * 100) > mte then mte - ce
          else if K * 100 > mtp then mtp else K * 100) ≤ mtp := by
  split_ifs <;> linarith

theorem round2_le_of_le {x b : ℚ} (h : x ≤ b) : round2 x ≤ b + 1/100 := by
  have hr := round2_sub_le x
  rw [abs_le] at hr
  linarith [hr.2]

/-- C10 counterexample: with a negatively configured max_trade_percent
of -5, a perfectly ordinary call (win rate 0.6, ratio 1.5) returns an
optimal size percentage of 0, which does not lie in the claimed interval
[0, max_trade_percent] = [0, -5], and a recommended size of 0 exceeding
the per-trade cap -20 by more than cent rounding. -/
theorem calculate_kelly_negative_cap_breaks_range :
    ((calculateKelly ⟨1/2, -5, 10, 400⟩ (3/5) (3/2) 0 0).map
        (fun r => r.optimal_size_percent)) = some 0
    ∧ ¬ ((0 : ℚ) ≤ -5) := by
  constructor
  · norm_num [calculateKelly, sanitizeWr, sanitizeRr, fullKelly, cnt]
  · norm_num

/-- C10 (amended): for every call with nonnegative bankroll, nonnegative
current trader exposure and a nonnegatively configured max_trade_percent
— including out-of-range win rates and nonpositive win/loss values, which
the sanitization replaces by the 0.6 and 1.5 defaults — calculate_kelly
returns without raising, its optimal_size_percent lies in
[0, max_trade_percent], and its recommended_position_size is nonnegative
and exceeds the per-trade cap by at most cent rounding. -/
theorem calculate_kelly_total_and_bounded (c : KellyCfg) (win_rate wlr ts ce : ℚ)
    (hb : 0 ≤ c.bankroll) (hce : 0 ≤ ce) (hm : 0 ≤ c.max_trade_percent) :
    ∃ r, calculateKelly c win_rate wlr ts ce = some r ∧
      0 ≤ r.optimal_size_percent ∧ r.optimal_size_percent ≤ c.max_trade_percent ∧
      0 ≤ r.recommended_position_size ∧
      r.recommended_position_size ≤ c.max_trade_percent / 100 * c.bankroll + 1/100 := by
  have hrr : sanitizeRr wlr ≠ 0 := by
    unfold sanitizeRr
    split_ifs with h
    · norm_num
    · push_neg at h
      exact ne_of_gt h
  have hnn := kelly_clamp_nonneg (fullKelly (sanitizeWr win_rate) (sanitizeRr wlr) * c.kelly_fraction)
      c.max_trade_percent c.max_trader_exposure ce
  have hle := kelly_clamp_le (fullKelly (sanitizeWr win_rate) (sanitizeRr wlr) * c.kelly_fraction)
      c.max_trade_percent c.max_trader_exposure ce hm
  simp only [calculateKelly]
  rw [if_neg hrr]
  refine ⟨_, rfl, hnn, hle, round2_nonneg (mul_nonneg (div_nonneg hnn (by norm_num)) hb),
    round2_le_of_le (mul_le_mul_of_nonneg_right (by linarith [hle]) hb)⟩

theorem calculate_kelly_total_and_bounded_witness :
    ∃ r, calculateKelly ⟨1/2, 2, 10, 400⟩ (3/5) (3/2) 0 0 = some r ∧
      0 ≤ r.optimal_size_percent ∧ r.optimal_size_percent ≤ 2 ∧
      0 ≤ r.recommended_position_size ∧
      r.recommended_position_size ≤ 2 / 100 * 400 + 1/100 :=
  calculate_kelly_total_and_bounded ⟨1/2, 2, 10, 400⟩ (3/5) (3/2) 0 0
    (by norm_num) (by norm_num) (by norm_num)

/-! ### whale_scaler.py and position_scaler.py -/

/-- The ScalerConfig of whale_scaler.py. -/
structure WhaleScalerCfg where
  our_bankroll : ℚ
  trader_avg_bet : ℚ
  max_position_pct : ℚ

/-- Embeds WhaleScaler.calculate (the our_copy value of the returned
dict): proportional share of 2 percent of bankroll per 100 percent of the
trader average, capped at the configured maximum position and floored, by
rounding up, at one dollar.  Returns none when trader_avg_bet is zero,
where the Python division raises. -/
def whaleScalerCalc (c : WhaleScalerCfg) (trader_bet : ℚ) : Option ℚ :=
  if c.trader_avg_bet = 0 then none else
  let base_pct := trader_bet / c.trader_avg_bet * 2
  let raw := c.our_bankroll * base_pct / 100
  let capped := min raw (c.our_bankroll * c.max_position_pct)
  some (max (round2 capped) 1)

/-- The ScalerConfig of position_scaler.py. -/
structure PosScalerCfg where
  our_bankroll : ℚ
  trader_avg_bet : ℚ
  trader_bankroll : ℚ
  size_multiplier : ℚ
  max_position_pct : ℚ

/-- Embeds PositionScaler.calculate (the our_copy value): bankroll-scaled
share with the two-piece tier adjustment, capped at the configured
maximum position and floored, by rounding up, at one dollar.  Returns
none when trader_bankroll is zero, where the constructor division
raises. -/
def posScalerCalc (c : PosScalerCfg) (trader_bet : ℚ) : Option ℚ :=
  if c.trader_bankroll = 0 then none else
  let pctOfAvg := if c.trader_avg_bet > 0 then trader_bet / c.trader_avg_bet else 1
  let s1 := trader_bet * (c.our_bankroll / c.trader_bankroll) * c.size_multiplier
  let s2 := if pctOfAvg > 3/2 then s1 * (115/100)
    else if pctOfAvg < 1/2 then s1 * (9/10) else s1
  let s3 := min s2 (c.our_bankroll * c.max_position_pct)
  some (max (round2 s3) 1)

/-- C7 counterexample: with the default whale-scaler configuration
(bankroll 433, trader average 100, 15 percent cap), a one-dollar trader
bet yields the pre-floor proposal 433/5000 = 0.0866 dollars — far below
the one-dollar floor — yet calculate returns exactly 1.00: the proposal
is rounded up to the floor and stays eligible, with no too-small skip. -/
theorem whale_scaler_rounds_small_proposal_up_to_floor :
    whaleScalerCalc ⟨433, 100, 3/20⟩ 1 = some 1
    ∧ min ((433:ℚ) * (1 / 100 * 2) / 100) (433 * (3/20)) = 433/5000
    ∧ ((433:ℚ)/5000) < 1 := by
  refine ⟨?_, by norm_num [min_def], by norm_num⟩
  norm_num [whaleScalerCalc, round2, pyRound, min_def, max_def]

/-- C7 (amended): both scaler variants clamp every proposal into the
interval from the one-dollar floor to the configured cap (up to half-cent
rounding): the result is always at least one dollar — a below-floor
proposal is rounded up to the floor and remains eligible, the too-small
skip living downstream in the executor — and never exceeds the larger of
the floor and the cap plus rounding. -/
theorem scalers_clamp_with_floor_roundup (cw : WhaleScalerCfg) (cp : PosScalerCfg)
    (bet1 bet2 : ℚ) (h1 : cw.trader_avg_bet ≠ 0) (h2 : cp.trader_bankroll ≠ 0) :
    (∃ v, whaleScalerCalc cw bet1 = some v ∧ 1 ≤ v ∧
        v ≤ max 1 (cw.our_bankroll * cw.max_position_pct + 1/200))
    ∧ (∃ v, posScalerCalc cp bet2 = some v ∧ 1 ≤ v ∧
        v ≤ max 1 (cp.our_bankroll * cp.max_position_pct + 1/200)) := by
  constructor
  · simp only [whaleScalerCalc]
    rw [if_neg h1]
    refine ⟨_, rfl, le_max_right _ _, max_le ?_ (le_max_left _ _)⟩
    have h3 := round2_sub_le (min (cw.our_bankroll * (bet1 / cw.trader_avg_bet * 2) / 100)
        (cw.our_bankroll * cw.max_position_pct))
    rw [abs_le] at h3
    have h4 := min_le_right (cw.our_bankroll * (bet1 / cw.trader_avg_bet * 2) / 100)
        (cw.our_bankroll * cw.max_position_pct)
    exact le_trans (by linarith [h3.2]) (le_max_right (1:ℚ) _)
  · simp only [posScalerCalc]
    rw [if_neg h2]
    refine ⟨_, rfl, le_max_right _ _, max_le ?_ (le_max_left _ _)⟩
    have h3 := round2_sub_le (min
        (if (if cp.trader_avg_bet > 0 then bet2 / cp.trader_avg_bet else 1) > 3/2
         then bet2 * (cp.our_bankroll / cp.trader_bankroll) * cp.size_multiplier * (115/100)
         else if (if cp.trader_avg_bet > 0 then bet2 / cp.trader_avg_bet else 1) < 1/2
           then bet2 * (cp.our_bankroll / cp.trader_bankroll) * cp.size_multiplier * (9/10)
           else bet2 * (cp.our_bankroll / cp.trader_bankroll) * cp.size_multiplier)
        (cp.our_bankroll * cp.max_position_pct))
    rw [abs_le] at h3
    have h4 := min_le_right
        (if (if cp.trader_avg_bet > 0 then bet2 / cp.trader_avg_bet else 1) > 3/2
         then bet2 * (cp.our_bankroll / cp.trader_bankroll) * cp.size_multiplier * (115/100)
         else if (if cp.trader_avg_bet > 0 then bet2 / cp.trader_avg_bet else 1) < 1/2
           then bet2 * (cp.our_bankroll / cp.trader_bankroll) * cp.size_multiplier * (9/10)
           else bet2 * (cp.our_bankroll / cp.trader_bankroll) * cp.size_multiplier)
        (cp.our_bankroll * cp.max_position_pct)
    exact le_trans (by linarith [h3.2]) (le_max_right (1:ℚ) _)

theorem scalers_clamp_with_floor_roundup_witness :
    (∃ v, whaleScalerCalc ⟨433, 100, 3/20⟩ 50 = some v ∧ 1 ≤ v ∧
        v ≤ max 1 ((433:ℚ) * (3/20) + 1/200))
    ∧ (∃ v, posScalerCalc ⟨433, 100, 10000, 3/2, 3/20⟩ 50 = some v ∧ 1 ≤ v ∧
        v ≤ max 1 ((433:ℚ) * (3/20) + 1/200)) :=
  scalers_clamp_with_floor_roundup ⟨433, 100, 3/20⟩ ⟨433, 100, 10000, 3/2, 3/20⟩ 50 50
    (by norm_num) (by norm_num)

/-! ### kalshi_executor.py -/

/-- The KalshiCopyConfig attributes read by the executor paths modelled
here. -/
structure ExecCfg where
  dry_run : Bool
  bankroll : ℚ
  max_trade_percent : ℚ
  max_position_size_per_market : ℚ
  max_position_size_total : ℚ
  whale_avg_window : ℕ

/-- One record of the durable trade log as written by _log_trade.  The
isoformat timestamp is modelled as the rational clock value at the write;
_recently_traded converts it back to the same number. -/
structure TradeLogEntry where
  timestamp : ℚ
  order_id : Option String
  pm_title : String
  pm_slug : String
  pm_size : ℚ
  kalshi_market : String
  kalshi_ticker : String
  kalshi_side : String
  position_size : ℚ
  sport : String
  game_key : String
  match_type : String
  confidence : ℚ
deriving DecidableEq

/-- The mutable executor state: the two dollar-exposure dicts of
_load_positions, the trade-log file, and the whale-analyzer history. -/
structure ExecState where
  positions_by_market : List (String × ℚ)
  positions_by_side : List (String × ℚ)
  trade_log : List TradeLogEntry
  whale_history : List RawTrade
deriving DecidableEq

/-- The dict returned by KalshiClient.place_order, restricted to the keys
the executor reads. -/
structure OrderResult where
  success : Bool
  order_id : Option String
  error_msg : Option String

/-- The TradeResult dataclass, restricted to the fields the claims read;
the pm_trade and kalshi_market payload references are omitted. -/
structure TradeResultM where
  success : Bool
  trade_id : Option String
  position_size : ℚ
  side : String
  error_msg : Option String

/-- Embeds WhaleAnalyzer.add_trades: extend, then keep the last
window-size entries. -/
def addTrades (window : ℕ) (hist trades : List RawTrade) : List RawTrade :=
  let h := hist ++ trades
  h.drop (h.length - window)

/-- The positive size values of the whale history, as read by
WhaleAnalyzer.get_stats (the size key only, defaulting to 0). -/
def whaleSizes (hist : List RawTrade) : List ℚ :=
  (hist.map (fun t => t.size.getD 0)).filter (fun s => decide (0 < s))

/-- Embeds WhaleAnalyzer.get_scaled_position: with no positive history
the normal size is returned; otherwise the normal size scaled by the
ratio of this trade to the whale average, capped at a quarter of the
bankroll. -/
def getScaledPosition (hist : List RawTrade) (our_bankroll trade_size our_normal : ℚ) : ℚ :=
  let sizes := whaleSizes hist
  let avg := if sizes.length = 0 then 0 else sizes.sum / (sizes.length : ℚ)
  if avg ≤ 0 then our_normal
  else min (our_normal * (trade_size / avg)) (our_bankroll * (25/100))

/-- Embeds KalshiExecutor.calculate_position_size.  The market-refresh
side effect (reloading the matcher when its market dict is empty) is a
read-only collaborator call and is not modelled; it does not touch the
ledger. -/
def calcPositionSize (cfg : ExecCfg) (hist : List RawTrade) (pm : PMTradeData) : ℚ :=
  if pm.size ≤ 0 then 0
  else getScaledPosition hist cfg.bankroll pm.size (cfg.bankroll * (cfg.max_trade_percent / 100))

/-- Embeds KalshiExecutor._recently_traded with its default cooldown of
30 minutes: a log entry is recent when its timestamp is after now minus
the cooldown, and the market counts as recently traded when some recent
entry's pm slug ends with the first team and ends with the second team
of the parsed trade. -/
def recentlyTraded (log : List TradeLogEntry) (now cooldown_minutes : ℚ)
    (pm : PMTradeData) : Bool :=
  let cutoff := now - cooldown_minutes * 60
  let recent := log.filter (fun t => decide (cutoff < t.timestamp))
  recent.any (fun t => strEnds t.pm_slug pm.teams.1 && strEnds t.pm_slug pm.teams.2)

/-- The slug read by _log_trade via pm_trade.get("market", {}).get("slug", ""). -/
def rawMarketSlug (td : RawTrade) : String :=
  match td.market with
  | some mi => mi.slug.getD ""
  | none => ""

/-- The title read by _log_trade via pm_trade.get("market", {}).get("title", ""). -/
def rawMarketTitle (td : RawTrade) : String :=
  match td.market with
  | some mi => mi.mtitle.getD ""
  | none => ""

/-- Embeds KalshiExecutor._log_trade: append the record to the durable
log and bump both dollar-exposure dicts. -/
def logTrade (st : ExecState) (now : ℚ) (td : RawTrade) (mm : MarketMatch)
    (size : ℚ) (oid : Option String) : ExecState :=
  { st with
    trade_log := st.trade_log ++
      [⟨now, oid, rawMarketTitle td, rawMarketSlug td, td.amount.getD 0,
        mm.kalshi_market_title, mm.kalshi_market_id, mm.kalshi_side, size,
        mm.sport, mm.game_key, mm.match_type, mm.confidence⟩],
    positions_by_market := bumpKey st.positions_by_market mm.game_key size,
    positions_by_side := bumpKey st.positions_by_side
      (mm.game_key ++ ":" ++ mm.kalshi_side) size }

/-- Embeds KalshiExecutor.execute_copy_trade.  The exchange client is the
collaborator function (ticker, side, count) to an order result; the
wall-clock moment is now.  In dry-run mode the position dicts are bumped
and no log record is written, as in the source; in live mode the ledger
and log are touched only inside _log_trade on a successful order. -/
def executeCopyTrade (client : String → String → ℤ → OrderResult) (mx : Matcher)
    (cfg : ExecCfg) (st : ExecState) (now : ℚ) (td : RawTrade) (pm : PMTradeData) :
    TradeResultM × ExecState :=
  match findMatch mx pm with
  | none => (⟨false, none, 0, "", some "No Kalshi market"⟩, st)
  | some mm =>
    let side_key := mm.game_key ++ ":" ++ mm.kalshi_side
    let current_total := sumValues st.positions_by_market
    let current_on_side := getD0 st.positions_by_side side_key
    if current_on_side ≥ cfg.max_position_size_per_market then
      (⟨false, none, 0, mm.kalshi_side, some "Max on side"⟩, st)
    else if current_total ≥ cfg.max_position_size_total then
      (⟨false, none, 0, mm.kalshi_side, some "Max total exposure"⟩, st)
    else
      let ps0 := calcPositionSize cfg st.whale_history pm
      let remaining := cfg.max_position_size_per_market - current_on_side
      let ps := if ps0 > remaining then remaining else ps0
      if ps < 1 then
        (⟨false, none, ps, mm.kalshi_side, some "Position too small after cap"⟩, st)
      else if cfg.dry_run then
        (⟨true, some "dry", ps, mm.kalshi_side, none⟩,
         { st with
           positions_by_market := bumpKey st.positions_by_market mm.game_key ps,
           positions_by_side := bumpKey st.positions_by_side side_key ps })
      else
        let res := client mm.kalshi_market_id mm.kalshi_side (pyInt ps)
        if res.success then
          (⟨true, res.order_id, ps, mm.kalshi_side, none⟩, logTrade st now td mm ps res.order_id)
        else
          (⟨false, none, ps, mm.kalshi_side, some ((res.error_msg).getD "Unknown error")⟩, st)

/-- Embeds KalshiExecutor.process_whale_trades: feed the batch to the
whale analyzer, then for each trade parse, drop on the cooldown check,
else execute; skip reasons are collected as strings. -/
def processWhaleTrades (extractTeams : String → String → String → String × String)
    (client : String → String → ℤ → OrderResult) (mx : Matcher) (cfg : ExecCfg)
    (st : ExecState) (now : ℚ) (trades : List RawTrade) :
    (List TradeResultM × List String) × ExecState :=
  let st0 : ExecState :=
    { st with whale_history := addTrades cfg.whale_avg_window st.whale_history trades }
  trades.foldl
    (fun acc td =>
      match parsePmTrade extractTeams td with
      | none => ((acc.1.1, acc.1.2 ++ ["Failed to parse PM trade"]), acc.2)
      | some pm =>
        if recentlyTraded acc.2.trade_log now 30 pm then
          ((acc.1.1, acc.1.2 ++ ["Recently traded"]), acc.2)
        else
          let r := executeCopyTrade client mx cfg acc.2 now td pm
          if r.1.success then ((acc.1.1 ++ [r.1], acc.1.2), r.2)
          else ((acc.1.1, acc.1.2 ++ [(r.1.error_msg).getD "Unknown error"]), r.2))
    (([], []), st0)

/-- C2: when the executor runs live (dry_run false) and the exchange
client reports failure, execute_copy_trade leaves the entire executor
state — both dollar-exposure dicts and the durable trade log — exactly
unchanged; nothing marks the trade processed, so the cooldown check and
the position caps see the same state on the next cycle and the trade
stays eligible for retry.  Ledger and log mutations happen only in
_log_trade, behind a confirmed acceptance. -/
theorem execute_copy_trade_failure_leaves_state
    (client : String → String → ℤ → OrderResult) (mx : Matcher) (cfg : ExecCfg)
    (st : ExecState) (now : ℚ) (td : RawTrade) (pm : PMTradeData)
    (hdry : cfg.dry_run = false)
    (hfail : ∀ t s c, (client t s c).success = false) :
    (executeCopyTrade client mx cfg st now td pm).2 = st := by
  unfold executeCopyTrade
  cases hfm : findMatch mx pm with
  | none => rfl
  | some mm =>
    dsimp only
    simp only [hdry, hfail, Bool.false_eq_true, if_false]
    split_ifs <;> rfl

theorem execute_copy_trade_failure_leaves_state_witness :
    (executeCopyTrade (fun _ _ _ => ⟨false, none, some "order rejected"⟩) (Matcher.mk [])
        ⟨false, 100, 2, 27, 108, 50⟩ ⟨[], [], [], []⟩ 0
        ⟨none, none, none, none, none, none, none, none, none, none,
         none, none, none, none, none, none, none⟩
        ⟨"p", "t", "yes", 100, "nba", ("bos", "nyk"), "winner", none, none⟩).2
      = ⟨[], [], [], []⟩ :=
  execute_copy_trade_failure_leaves_state _ _ _ _ _ _ _ rfl (fun _ _ _ => rfl)

/-- The C1 failing input: a cbb winner trade for syr-unc with a 150
dollar bet, shaped as the Polymarket activity feed delivers it. -/
def c1Trade : RawTrade :=
  ⟨some ⟨some "Will Syracuse beat North Carolina?", none,
         some "cbb-syr-unc-2026-02-01", some "pm-123"⟩,
   none, none, none, some "cond-1", none, some "abc123", none, none, some "buy",
   none, none, some 150, none, some "yes", none, none⟩

/-- A team extractor consistent with the positional slug decomposition of
_extract_teams on cbb-syr-unc-2026-02-01. -/
def c1ExtractTeams : String → String → String → String × String :=
  fun _ _ _ => ("syr", "unc")

/-- An always-accepting exchange client. -/
def c1Client : String → String → ℤ → OrderResult :=
  fun _ _ _ => ⟨true, some "ord-1", none⟩

/-- The matcher index holding one Kalshi winner market for syr-unc. -/
def c1Matcher : Matcher :=
  buildIndex [("cbb:winner:syr-unc",
    [⟨"Will Syracuse beat North Carolina?", "KXCBB-SYRUNC", "winner"⟩])]

/-- Live-mode executor configuration with the source defaults. -/
def c1Cfg : ExecCfg := ⟨false, 100, 2, 27, 108, 50⟩

/-- The parse of c1Trade. -/
def c1Pm : PMTradeData :=
  ⟨"pm-123", "abc123", "yes", 150, "cbb", ("syr", "unc"), "winner", none, some "2026-02-01"⟩

/-- The market match found for c1Pm. -/
def c1Mm : MarketMatch :=
  ⟨"pm-123", "will syracuse beat north carolina?", "abc123", "yes", "KXCBB-SYRUNC",
   "will syracuse beat north carolina?", "yes", "cbb", "syr-unc", 1, "exact"⟩

/-- The log record written by the first execution of c1Trade. -/
def c1Entry1 : TradeLogEntry :=
  ⟨10000, some "ord-1", "Will Syracuse beat North Carolina?", "cbb-syr-unc-2026-02-01", 150,
   "will syracuse beat north carolina?", "KXCBB-SYRUNC", "yes", 2, "cbb", "syr-unc", "exact", 1⟩

/-- The executor state after the first submission of c1Trade. -/
def c1State1 : ExecState :=
  (processWhaleTrades c1ExtractTeams c1Client c1Matcher c1Cfg
    ⟨[], [], [], []⟩ 10000 [c1Trade]).2

/-- The executor state after submitting the identical trade again. -/
def c1State2 : ExecState :=
  (processWhaleTrades c1ExtractTeams c1Client c1Matcher c1Cfg c1State1 10000 [c1Trade]).2

theorem c1_parse : parsePmTrade c1ExtractTeams c1Trade = some c1Pm := by decide

theorem c1_index : c1Matcher = Matcher.mk [("cbb", [("syr-unc",
    [⟨"Will Syracuse beat North Carolina?", "KXCBB-SYRUNC", "winner"⟩])])] := by decide

theorem c1_side : determineKalshiSide
    ⟨"Will Syracuse beat North Carolina?", "KXCBB-SYRUNC", "winner"⟩
    ⟨"pm-123", "abc123", "yes", 150, "cbb", ("syr", "unc"), "winner", none, some "2026-02-01"⟩
    = some "yes" := by decide

theorem c1_lower : lowerStr "Will Syracuse beat North Carolina?"
    = "will syracuse beat north carolina?" := by decide

theorem c1_gamekey : buildGameKey "syr" "unc" = "syr-unc" := by decide

theorem c1_ends : (strEnds "cbb-syr-unc-2026-02-01" "syr" &&
    strEnds "cbb-syr-unc-2026-02-01" "unc") = false := by decide

theorem c1_match : findMatch c1Matcher c1Pm = some c1Mm := by
  rw [c1_index]
  simp only [findMatch, c1Pm]
  rw [if_neg (by decide : ¬("cbb" = ""))]
  simp only [List.lookup, c1_gamekey, beq_self_eq_true, if_true, reduceIte]
  simp only [findBestMatch, List.foldl, candStep, c1_side, c1_lower, c1Mm, c1_gamekey]
  norm_num
  simp

theorem c1_key : "syr-unc" ++ ":" ++ "yes" = "syr-unc:yes" := by decide

theorem c1_slug : rawMarketSlug c1Trade = "cbb-syr-unc-2026-02-01" := rfl

theorem c1_title : rawMarketTitle c1Trade = "Will Syracuse beat North Carolina?" := rfl

theorem c1_sizes : whaleSizes [c1Trade] = [] := by decide

theorem c1_sizes2 : whaleSizes [c1Trade, c1Trade] = [] := by decide

theorem c1_addtr : addTrades 50 [] [c1Trade] = [c1Trade] := by decide

theorem c1_addtr2 : addTrades 50 [c1Trade] [c1Trade] = [c1Trade, c1Trade] := by decide

theorem c1_window : c1Cfg.whale_avg_window = 50 := rfl

theorem c1_rt1 : recentlyTraded [] 10000 30 c1Pm = false := rfl

theorem c1_rt2 : recentlyTraded [c1Entry1] 10000 30 c1Pm = false := by
  simp only [recentlyTraded, List.filter_cons, List.filter_nil, decide_eq_true_eq, c1Entry1,
    c1Pm, List.any_cons, List.any_nil, Bool.or_false]
  norm_num
  decide

theorem c1_cfgA : c1Cfg.max_position_size_per_market = 27 := rfl

theorem c1_cfgB : c1Cfg.max_position_size_total = 108 := rfl

theorem c1_cfgC : c1Cfg.bankroll = 100 := rfl

theorem c1_cfgD : c1Cfg.max_trade_percent = 2 := rfl

theorem c1_cfgE : c1Cfg.dry_run = false := rfl

theorem c1_exec1 : executeCopyTrade c1Client c1Matcher c1Cfg
    ⟨[], [], [], [c1Trade]⟩ 10000 c1Trade c1Pm
    = (⟨true, some "ord-1", 2, "yes", none⟩,
       ⟨[("syr-unc", 2)], [("syr-unc:yes", 2)], [c1Entry1], [c1Trade]⟩) := by
  simp only [executeCopyTrade]
  rw [c1_match]
  simp only [c1Mm, c1_key, getD0, List.lookup, sumValues, List.map_nil, List.sum_nil,
    calcPositionSize, getScaledPosition, c1_sizes, List.length_nil]
  norm_num [c1Pm, c1_cfgA, c1_cfgB, c1_cfgC, c1_cfgD, c1_cfgE]
  simp only [c1Client, logTrade, bumpKey, setKey, getD0, List.lookup, c1_slug, c1_title,
    c1_key, c1Mm, c1Entry1]
  norm_num [c1Trade]

theorem c1_exec2 : executeCopyTrade c1Client c1Matcher c1Cfg
    ⟨[("syr-unc", 2)], [("syr-unc:yes", 2)], [c1Entry1], [c1Trade, c1Trade]⟩ 10000 c1Trade c1Pm
    = (⟨true, some "ord-1", 2, "yes", none⟩,
       ⟨[("syr-unc", 4)], [("syr-unc:yes", 4)], [c1Entry1, c1Entry1], [c1Trade, c1Trade]⟩) := by
  simp only [executeCopyTrade]
  rw [c1_match]
  simp only [c1Mm, c1_key, getD0, List.lookup, sumValues, List.map_cons, List.map_nil,
    List.sum_cons, List.sum_nil, calcPositionSize, getScaledPosition, c1_sizes2,
    List.length_nil]
  norm_num [c1Pm, c1_cfgA, c1_cfgB, c1_cfgC, c1_cfgD, c1_cfgE]
  simp only [c1Client, logTrade, bumpKey, setKey, getD0, List.lookup, c1_slug, c1_title,
    c1_key, c1Mm, c1Entry1]
  norm_num [c1Trade]

theorem c1_state1_eval :
    c1State1 = ⟨[("syr-unc", 2)], [("syr-unc:yes", 2)], [c1Entry1], [c1Trade]⟩ := by
  simp only [c1State1, processWhaleTrades, c1_window, c1_addtr, List.foldl, c1_parse,
    c1_rt1, c1_exec1]
  norm_num

theorem c1_state2_eval :
    c1State2 = ⟨[("syr-unc", 4)], [("syr-unc:yes", 4)], [c1Entry1, c1Entry1],
      [c1Trade, c1Trade]⟩ := by
  simp only [c1State2, c1_state1_eval, processWhaleTrades, c1_window, c1_addtr2,
    List.foldl, c1_parse, c1_rt2, c1_exec2]
  norm_num

/-- C1: the executor commits the same origin trade twice.  With one
matching Kalshi market, a succeeding exchange client and live mode, the
first process_whale_trades call on the trade leaves 2 dollars committed
on syr-unc:yes and one log record; submitting the identical trade again
doubles the ledger to 4 dollars and appends a second log record, because
_recently_traded demands the PM slug end with both team codes at once —
impossible for distinct teams — and the executor keeps no processed set
of origin ids. -/
theorem executor_reexecutes_duplicate_trade :
    c1State1.positions_by_side = [("syr-unc:yes", 2)]
    ∧ c1State1.trade_log.length = 1
    ∧ c1State2.positions_by_side = [("syr-unc:yes", 4)]
    ∧ c1State2.trade_log.length = 2 := by
  rw [c1_state1_eval, c1_state2_eval]
  exact ⟨rfl, rfl, rfl, rfl⟩
